import Mathlib

/-!
Verification of the SysReptor license codec/validator and activation tracker
against its natural-language specification.

The license subsystem (`sysreptor/utils/license.py`, `sysreptor/tasks/*`) is
exercised by `sysreptor/tests/test_license.py`; the module itself is not part
of the provided source slice, so the definitions below are modelled from the
specification (and pinned, where the spec is ambiguous or contradicted, by the
behaviour the repository's own tests demand).

Cryptographic primitives (Ed25519 over SHA-512, base64, JSON) are modelled
symbolically: a signature value records which private key produced it and
which payload bytes were signed; verification succeeds exactly when the
trust key's public half corresponds to that private key and the payload is
byte-identical.  Raw license strings are modelled by an inductive type whose
constructors mirror the decode outcomes the codec distinguishes.
-/

namespace SysReptorLicense

/-- Modelled from the spec: the license tier enum
(`tier: enum{COMMUNITY, PROFESSIONAL}`). -/
inductive LicenseType where
  | COMMUNITY
  | PROFESSIONAL
deriving DecidableEq, Repr

/-- Modelled from the spec: a parsed license record (`LicenseRecord`) with
`users` (seat count, integer), `valid_from` and `valid_until` (ISO calendar
dates, modelled as day ordinals). -/
structure LicenseRecord where
  users : Int
  valid_from : Nat
  valid_until : Nat
deriving DecidableEq, Repr

/-- Modelled from the spec: the envelope `data` field — the exact signed
payload string.  It either parses into a `LicenseRecord` or is malformed;
the constructor records the parse outcome while keeping payload identity
(the signed bytes are the raw `data` string, never a re-serialization). -/
inductive Payload where
  | record (r : LicenseRecord)
  | malformed (s : String)
deriving DecidableEq, Repr

/-- Symbolic model of detached Ed25519 signature bytes: which private key
signed, and exactly which payload bytes were signed. -/
structure SigBytes where
  signerPriv : Nat
  signedData : Payload
deriving DecidableEq, Repr

/-- Modelled from the spec: one entry of the envelope's `signatures` list:
`{key_id, algorithm, signature}`. -/
structure Signature where
  key_id : String
  algorithm : String
  sig_bytes : SigBytes
deriving DecidableEq, Repr

/-- Modelled from the spec: one configured trust key
`{id, algorithm, key: public key}`.  In the symbolic crypto model the public
half of private key `p` is `p` itself. -/
structure TrustKey where
  id : String
  algorithm : String
  key : Nat
deriving DecidableEq, Repr

/-- Modelled from the spec: the outer license envelope
`{data: string, signatures: [...]}`. -/
structure LicenseEnvelope where
  data : Payload
  signatures : List Signature
deriving DecidableEq, Repr

/-- Modelled from the spec: the raw configured license string, by decode
outcome: absent (`None`), empty string, non-empty text that is not valid
base64, base64 of bytes that are not JSON of the envelope shape, and a
structurally well-formed envelope. -/
inductive RawLicense where
  | absent
  | emptyStr
  | notBase64 (s : String)
  | badJson (s : String)
  | wellFormed (e : LicenseEnvelope)
deriving DecidableEq, Repr

/-- Modelled from the spec: the validator's output `LicenseDecision`
(`{type, users, error}` dict returned by `decode_and_validate_license`). -/
structure LicenseInfo where
  type : LicenseType
  users : Option Int
  error : Option String
deriving DecidableEq, Repr

/-- Modelled from the spec: `SignatureVerifier.verify(payload, signature, key)`.
The algorithms must match (no cryptographic work on mismatch); in the
symbolic model verification succeeds iff the signature was produced by the
private half of `key` over exactly `payload`. -/
def verify (payload : Payload) (s : Signature) (k : TrustKey) : Bool :=
  decide (s.algorithm = k.algorithm) &&
  decide (s.sig_bytes.signerPriv = k.key) &&
  decide (s.sig_bytes.signedData = payload)

/-- Modelled from the spec: the signature check of `evaluate` step 3 — for
every `(signature, key)` pair with `signature.key_id == key.id`, verify; at
least one verification must succeed. -/
def checkSignatures (payload : Payload) (sigs : List Signature)
    (keys : List TrustKey) : Bool :=
  sigs.any fun s => keys.any fun k => decide (s.key_id = k.id) && verify payload s k

/-- Modelled from the spec: `decode_and_validate_license` — the validator
pipeline, short-circuiting to a COMMUNITY decision with a stable error
message at the first failing stage: decode, signature check, payload parse,
temporal check, seat check. -/
def decode_and_validate_license (raw : RawLicense) (keys : List TrustKey)
    (currentUsage : Nat) (now : Nat) : LicenseInfo :=
  match raw with
  | .absent => { type := .COMMUNITY, users := none, error := none }
  | .emptyStr => { type := .COMMUNITY, users := none, error := none }
  | .notBase64 _ =>
      { type := .COMMUNITY, users := none,
        error := some "Failed to load license: invalid format" }
  | .badJson _ =>
      { type := .COMMUNITY, users := none,
        error := some "Failed to load license: invalid format" }
  | .wellFormed env =>
      if !checkSignatures env.data env.signatures keys then
        { type := .COMMUNITY, users := none,
          error := some "No valid signature found for license" }
      else
        match env.data with
        | .malformed _ =>
            { type := .COMMUNITY, users := none,
              error := some "Invalid license data" }
        | .record r =>
            if now < r.valid_from then
              { type := .COMMUNITY, users := none,
                error := some "License not yet valid" }
            else if r.valid_until < now then
              { type := .COMMUNITY, users := none,
                error := some "License expired" }
            else if r.users ≤ 0 then
              { type := .COMMUNITY, users := none,
                error := some "Invalid user count in license" }
            else if r.users < (currentUsage : Int) then
              { type := .COMMUNITY, users := none,
                error := some "License user limit exceeded" }
            else
              { type := .PROFESSIONAL, users := some r.users, error := none }

/-- Holds (as a Bool) when the first list is an initial segment of the
second. -/
def leadsWith : List Char → List Char → Bool
  | [], _ => true
  | _ :: _, [] => false
  | a :: as, b :: bs => a == b && leadsWith as bs

/-- Holds (as a Bool) when `pat` occurs contiguously inside the second
list. -/
def hasSubList (pat : List Char) : List Char → Bool
  | [] => pat.isEmpty
  | c :: rest => leadsWith pat (c :: rest) || hasSubList pat rest

/-- Case-insensitive substring check, mirroring the tests'
`error in license_info['error'].lower()` assertions: `pat` (already
lower-case in every use) must occur in the lower-casing of `s`. -/
def strContainsLower (s pat : String) : Bool :=
  hasSubList pat.toList (s.toList.map Char.toLower)

/-- The error text of a decision (empty when no error). -/
def errText (info : LicenseInfo) : String :=
  info.error.getD ""

/-- Modelled from the spec: a persisted `ActivationRecord`
(`LicenseActivationInfo` row): fingerprint of the license state, the
decision snapshot, and the opaque reply of the external activation call
(absent when the call failed or was skipped). -/
structure ActivationRecord where
  fingerprint : Option LicenseEnvelope
  tier : LicenseType
  seat_count : Option Int
  activation_reply : Option String
deriving DecidableEq, Repr

/-- Modelled from the spec: the activation-state fingerprint of a raw
license.  The spec maps the "no license" case to a fixed sentinel; the
repository's test `TestLicenseActivationInfo.test_license_activation_info_created`
additionally pins that a raw string that fails to decode is fingerprinted
the same as the no-license case (transition community → invalid creates no
record), so the fingerprint is derived from the decoded envelope, with
`none` for absent, empty or undecodable input. -/
def fingerprintOf (raw : RawLicense) : Option LicenseEnvelope :=
  match raw with
  | .wellFormed e => some e
  | _ => none

/-- Modelled from the spec: `ActivationTracker.track` — compare the new
fingerprint against the most recently stored record; on equality do nothing
(idempotent no-op), on change append one new record (newest first),
capturing the best-effort notify reply (`none` when the call failed). -/
def track (records : List ActivationRecord) (raw : RawLicense)
    (keys : List TrustKey) (currentUsage : Nat) (now : Nat)
    (notifyReply : Option String) : List ActivationRecord :=
  let fp := fingerprintOf raw
  let last : Option (Option LicenseEnvelope) := records.head?.map (·.fingerprint)
  if last = some fp then
    records
  else
    let info := decode_and_validate_license raw keys currentUsage now
    { fingerprint := fp, tier := info.type, seat_count := info.users,
      activation_reply := notifyReply } :: records

/-- A signing key pair, symbolically: the key id and the private scalar
(whose public half, in this model, is the same number). -/
structure KeyPair where
  keyId : String
  priv : Nat
deriving DecidableEq, Repr

/-- The trust key holding the public half of a key pair
(mirrors `generate_signing_key` in the tests). -/
def publicKeyOf (kp : KeyPair) : TrustKey :=
  { id := kp.keyId, algorithm := "ed25519", key := kp.priv }

/-- Modelled from the spec: producing one detached signature over the exact
payload bytes (mirrors `sign_license_data` in the tests). -/
def sign_license_data (payload : Payload) (kp : KeyPair) : Signature :=
  { key_id := kp.keyId, algorithm := "ed25519",
    sig_bytes := { signerPriv := kp.priv, signedData := payload } }

/-- Modelled from the spec: serializing a license record and wrapping it in
an envelope carrying one signature by `kp` (mirrors `sign_license` in the
tests, single-key case). -/
def sign_license (r : LicenseRecord) (kp : KeyPair) : LicenseEnvelope :=
  { data := .record r, signatures := [sign_license_data (.record r) kp] }

end SysReptorLicense

namespace SysReptorLicense

/-- Helper: when the signature check fails, the validator short-circuits to
the COMMUNITY decision carrying the "No valid signature" error. -/
theorem eval_sig_fail {env : LicenseEnvelope} {keys : List TrustKey}
    {usage now : Nat}
    (h : checkSignatures env.data env.signatures keys = false) :
    decode_and_validate_license (.wellFormed env) keys usage now =
      { type := .COMMUNITY, users := none,
        error := some "No valid signature found for license" } := by
  simp [decode_and_validate_license, h]

/-- Helper: when the signature check passes, the payload parses, the date
window contains `now`, the seat count is positive and the usage fits, the
validator returns the PROFESSIONAL decision with no error. -/
theorem eval_ok {r : LicenseRecord} {env : LicenseEnvelope}
    {keys : List TrustKey} {usage now : Nat}
    (hdata : env.data = .record r)
    (hsig : checkSignatures env.data env.signatures keys = true)
    (hfrom : r.valid_from ≤ now) (huntil : now ≤ r.valid_until)
    (hpos : 0 < r.users) (husage : (usage : Int) ≤ r.users) :
    decode_and_validate_license (.wellFormed env) keys usage now =
      { type := .PROFESSIONAL, users := some r.users, error := none } := by
  obtain ⟨d, sigs⟩ := env
  simp only at hdata
  subst hdata
  simp only at hsig
  simp [decode_and_validate_license, hsig, not_lt.mpr hfrom, not_lt.mpr huntil,
    not_le.mpr hpos, not_lt.mpr husage]

/-- Helper: a singleton signature produced by `kp` over the serialized
record verifies against a trust-key set containing `kp`'s public half. -/
theorem checkSignatures_sign (r : LicenseRecord) (kp : KeyPair)
    (keys : List TrustKey) (hmem : publicKeyOf kp ∈ keys) :
    checkSignatures (sign_license r kp).data (sign_license r kp).signatures
      keys = true := by
  simp only [sign_license, checkSignatures, List.any_cons, List.any_nil,
    Bool.or_false]
  rw [List.any_eq_true]
  refine ⟨publicKeyOf kp, hmem, ?_⟩
  simp [verify, publicKeyOf, sign_license_data]

/-- Helper: a signature made by a key pair whose public half is not among
the trust keys never passes the signature check. -/
theorem checkSignatures_unrelated (r : LicenseRecord) (kp' : KeyPair)
    (keys : List TrustKey) (hdiff : ∀ k ∈ keys, k.key ≠ kp'.priv) :
    checkSignatures (sign_license r kp').data (sign_license r kp').signatures
      keys = false := by
  simp only [sign_license, checkSignatures, List.any_cons, List.any_nil,
    Bool.or_false]
  rw [List.any_eq_false]
  intro k hk
  simp [verify, sign_license_data]
  intro _ _ hpriv
  exact absurd hpriv.symm (hdiff k hk)

/-- Helper: appending one signature whose `key_id` matches no trust key
leaves the signature check unchanged. -/
theorem checkSignatures_append_untrusted (payload : Payload)
    (sigs : List Signature) (s : Signature) (keys : List TrustKey)
    (h : ∀ k ∈ keys, s.key_id ≠ k.id) :
    checkSignatures payload (sigs ++ [s]) keys =
      checkSignatures payload sigs keys := by
  simp only [checkSignatures, List.any_append, List.any_cons, List.any_nil,
    Bool.or_false]
  have hs : (keys.any fun k => decide (s.key_id = k.id) && verify payload s k)
      = false := by
    rw [List.any_eq_false]
    intro k hk
    simp [h k hk]
  rw [hs, Bool.or_false]

/-- C1: for every decoded license envelope, if no (signature, trust key)
pair with matching key_id verifies — covering the empty signature list, a
key_id matching no trust key, and a failing verification alike — then
`decode_and_validate_license` returns tier COMMUNITY with an error whose
lower-cased text contains "no valid signature", regardless of the payload
fields. -/
theorem no_valid_signature_rejected (env : LicenseEnvelope)
    (keys : List TrustKey) (usage now : Nat)
    (h : checkSignatures env.data env.signatures keys = false) :
    (decode_and_validate_license (.wellFormed env) keys usage now).type
      = .COMMUNITY ∧
    strContainsLower
      (errText (decode_and_validate_license (.wellFormed env) keys usage now))
      "no valid signature" = true := by
  rw [eval_sig_fail h]
  exact ⟨rfl, by decide⟩

/-- Witness for C1: the envelope with a well-formed payload and an empty
signatures list (as in `test_invalid_license_format`, last row) evaluates
to COMMUNITY with a "no valid signature" error. -/
theorem no_valid_signature_rejected_witness :
    (decode_and_validate_license
        (.wellFormed ⟨.record ⟨10, 0, 100⟩, []⟩) [] 0 50).type = .COMMUNITY ∧
    strContainsLower
      (errText (decode_and_validate_license
        (.wellFormed ⟨.record ⟨10, 0, 100⟩, []⟩) [] 0 50))
      "no valid signature" = true :=
  no_valid_signature_rejected ⟨.record ⟨10, 0, 100⟩, []⟩ [] 0 50 (by decide)

/-- C2: round-trip — a generated license record whose date window contains
`now` and whose (positive) seat count covers the current usage, signed with
a key pair whose public half is among the configured trust keys, evaluates
to PROFESSIONAL with no error; the same record signed instead with an
unrelated key pair (public half not among the trust keys) evaluates to
COMMUNITY with an error containing "no valid signature". -/
theorem license_round_trip (r : LicenseRecord) (kp kp' : KeyPair)
    (keys : List TrustKey) (usage now : Nat)
    (hmem : publicKeyOf kp ∈ keys)
    (hfrom : r.valid_from ≤ now) (huntil : now ≤ r.valid_until)
    (hpos : 0 < r.users) (husage : (usage : Int) ≤ r.users)
    (hdiff : ∀ k ∈ keys, k.key ≠ kp'.priv) :
    (decode_and_validate_license (.wellFormed (sign_license r kp)) keys usage now
       = { type := .PROFESSIONAL, users := some r.users, error := none }) ∧
    ((decode_and_validate_license (.wellFormed (sign_license r kp')) keys usage now).type
       = .COMMUNITY ∧
     strContainsLower
       (errText (decode_and_validate_license (.wellFormed (sign_license r kp'))
         keys usage now))
       "no valid signature" = true) := by
  refine ⟨?_, ?_⟩
  · exact eval_ok rfl (checkSignatures_sign r kp keys hmem) hfrom huntil hpos husage
  · rw [eval_sig_fail (checkSignatures_unrelated r kp' keys hdiff)]
    exact ⟨rfl, by decide⟩

/-- Witness for C2: the record `{users := 10, valid_from := 0,
valid_until := 100}` signed by key pair `("key1", 1)` validates against the
trust set holding that key's public half, and signed by the unrelated pair
`("key2", 2)` it is rejected with "no valid signature". -/
theorem license_round_trip_witness :
    (decode_and_validate_license
        (.wellFormed (sign_license ⟨10, 0, 100⟩ ⟨"key1", 1⟩))
        [publicKeyOf ⟨"key1", 1⟩] 3 50
       = { type := .PROFESSIONAL, users := some 10, error := none }) ∧
    ((decode_and_validate_license
        (.wellFormed (sign_license ⟨10, 0, 100⟩ ⟨"key2", 2⟩))
        [publicKeyOf ⟨"key1", 1⟩] 3 50).type = .COMMUNITY ∧
     strContainsLower
       (errText (decode_and_validate_license
         (.wellFormed (sign_license ⟨10, 0, 100⟩ ⟨"key2", 2⟩))
         [publicKeyOf ⟨"key1", 1⟩] 3 50))
       "no valid signature" = true) :=
  license_round_trip ⟨10, 0, 100⟩ ⟨"key1", 1⟩ ⟨"key2", 2⟩
    [publicKeyOf ⟨"key1", 1⟩] 3 50 (by decide) (by decide) (by decide)
    (by decide) (by decide) (by decide)

/-- C3: multi-signature tolerance — appending one signature whose key id
matches no configured trust key to an envelope that evaluates to
PROFESSIONAL leaves the evaluation at PROFESSIONAL. -/
theorem multi_signature_tolerance (env : LicenseEnvelope) (s : Signature)
    (keys : List TrustKey) (usage now : Nat)
    (hprof : (decode_and_validate_license (.wellFormed env) keys usage now).type
      = .PROFESSIONAL)
    (huntrusted : ∀ k ∈ keys, s.key_id ≠ k.id) :
    (decode_and_validate_license
        (.wellFormed ⟨env.data, env.signatures ++ [s]⟩) keys usage now).type
      = .PROFESSIONAL := by
  obtain ⟨d, sigs⟩ := env
  have hcongr :
      decode_and_validate_license (.wellFormed ⟨d, sigs ++ [s]⟩) keys usage now =
      decode_and_validate_license (.wellFormed ⟨d, sigs⟩) keys usage now := by
    simp only [decode_and_validate_license]
    rw [checkSignatures_append_untrusted d sigs s keys huntrusted]
  rw [hcongr]
  exact hprof

/-- Witness for C3: the validly signed envelope of
`license_round_trip_witness` keeps tier PROFESSIONAL after appending a
signature by an unknown key id. -/
theorem multi_signature_tolerance_witness :
    (decode_and_validate_license
        (.wellFormed ⟨(sign_license ⟨10, 0, 100⟩ ⟨"key1", 1⟩).data,
          (sign_license ⟨10, 0, 100⟩ ⟨"key1", 1⟩).signatures ++
            [⟨"unknown-key", "ed25519", ⟨2, .record ⟨10, 0, 100⟩⟩⟩]⟩)
        [publicKeyOf ⟨"key1", 1⟩] 3 50).type = .PROFESSIONAL :=
  multi_signature_tolerance (sign_license ⟨10, 0, 100⟩ ⟨"key1", 1⟩)
    ⟨"unknown-key", "ed25519", ⟨2, .record ⟨10, 0, 100⟩⟩⟩
    [publicKeyOf ⟨"key1", 1⟩] 3 50 (by decide) (by decide)

/-- C4: totality / fail-closed — for every raw license input,
`decode_and_validate_license` is a total function returning a decision
record with a tier (COMMUNITY or PROFESSIONAL) and an error field. -/
theorem evaluate_total (raw : RawLicense) (keys : List TrustKey)
    (usage now : Nat) :
    ∃ info : LicenseInfo, decode_and_validate_license raw keys usage now = info ∧
      (info.type = .COMMUNITY ∨ info.type = .PROFESSIONAL) := by
  refine ⟨_, rfl, ?_⟩
  cases h : (decode_and_validate_license raw keys usage now).type
  · exact Or.inl rfl
  · exact Or.inr rfl

/-- C5: decode stage — absent or empty raw input yields COMMUNITY with no
error (the distinguished "no license configured" case); any non-base64 or
non-JSON (envelope-shaped) input yields COMMUNITY with an error whose
lower-cased text contains "load". -/
theorem decode_stage (s t : String) (keys : List TrustKey) (usage now : Nat) :
    ((decode_and_validate_license .absent keys usage now).type = .COMMUNITY ∧
     (decode_and_validate_license .absent keys usage now).error = none) ∧
    ((decode_and_validate_license .emptyStr keys usage now).type = .COMMUNITY ∧
     (decode_and_validate_license .emptyStr keys usage now).error = none) ∧
    ((decode_and_validate_license (.notBase64 s) keys usage now).type = .COMMUNITY ∧
     strContainsLower
       (errText (decode_and_validate_license (.notBase64 s) keys usage now))
       "load" = true) ∧
    ((decode_and_validate_license (.badJson t) keys usage now).type = .COMMUNITY ∧
     strContainsLower
       (errText (decode_and_validate_license (.badJson t) keys usage now))
       "load" = true) :=
  ⟨⟨rfl, rfl⟩, ⟨rfl, rfl⟩, ⟨rfl, rfl⟩, ⟨rfl, rfl⟩⟩

/-- C8: decision invariant — every decision is either PROFESSIONAL with no
error, or COMMUNITY; hence a PROFESSIONAL tier implies an absent error and
a populated error implies COMMUNITY. -/
theorem decision_invariant (raw : RawLicense) (keys : List TrustKey)
    (usage now : Nat) :
    ((decode_and_validate_license raw keys usage now).type = .PROFESSIONAL ∧
     (decode_and_validate_license raw keys usage now).error = none) ∨
    (decode_and_validate_license raw keys usage now).type = .COMMUNITY := by
  unfold decode_and_validate_license
  cases raw <;> simp
  next env =>
    split
    · simp
    · split
      · simp
      · split
        · simp
        · split
          · simp
          · split
            · simp
            · split <;> simp

/-- Counterexample to C6 as stated: the record
`{users := 10, valid_from := 100, valid_until := 0}` signed by a trusted
key, evaluated at `now = 50`, has `now > valid_until` yet the error is
"License not yet valid" — it does not contain "expired", because the
not-yet-valid check runs first and short-circuits. -/
theorem temporal_check_counterexample :
    checkSignatures (sign_license ⟨10, 100, 0⟩ ⟨"key1", 1⟩).data
        (sign_license ⟨10, 100, 0⟩ ⟨"key1", 1⟩).signatures
        [publicKeyOf ⟨"key1", 1⟩] = true ∧
    (0 : Nat) < 50 ∧
    (decode_and_validate_license
        (.wellFormed (sign_license ⟨10, 100, 0⟩ ⟨"key1", 1⟩))
        [publicKeyOf ⟨"key1", 1⟩] 0 50).error = some "License not yet valid" ∧
    strContainsLower
      (errText (decode_and_validate_license
        (.wellFormed (sign_license ⟨10, 100, 0⟩ ⟨"key1", 1⟩))
        [publicKeyOf ⟨"key1", 1⟩] 0 50))
      "expired" = false := by
  exact ⟨by decide, by decide, by decide, by decide⟩

/-- C6 (amended): for every validly signed and parsed license record,
`now < valid_from` yields COMMUNITY with an error containing
"not yet valid"; and when additionally `valid_from ≤ now`,
`now > valid_until` yields COMMUNITY with an error containing "expired".
(The guard `valid_from ≤ now` is forced: with an inverted validity window
the not-yet-valid check fires first.) -/
theorem temporal_check (env : LicenseEnvelope) (r : LicenseRecord)
    (keys : List TrustKey) (usage now : Nat)
    (hsig : checkSignatures env.data env.signatures keys = true)
    (hdata : env.data = .record r) :
    (now < r.valid_from →
      (decode_and_validate_license (.wellFormed env) keys usage now).type
        = .COMMUNITY ∧
      strContainsLower
        (errText (decode_and_validate_license (.wellFormed env) keys usage now))
        "not yet valid" = true) ∧
    (r.valid_from ≤ now → r.valid_until < now →
      (decode_and_validate_license (.wellFormed env) keys usage now).type
        = .COMMUNITY ∧
      strContainsLower
        (errText (decode_and_validate_license (.wellFormed env) keys usage now))
        "expired" = true) := by
  obtain ⟨d, sigs⟩ := env
  simp only at hdata
  subst hdata
  simp only at hsig
  constructor
  · intro h
    have hval : decode_and_validate_license
        (.wellFormed ⟨.record r, sigs⟩) keys usage now =
        { type := .COMMUNITY, users := none,
          error := some "License not yet valid" } := by
      simp [decode_and_validate_license, hsig, h]
    rw [hval]
    exact ⟨rfl, by decide⟩
  · intro hfrom huntil
    have hval : decode_and_validate_license
        (.wellFormed ⟨.record r, sigs⟩) keys usage now =
        { type := .COMMUNITY, users := none,
          error := some "License expired" } := by
      simp [decode_and_validate_license, hsig, not_lt.mpr hfrom, huntil]
    rw [hval]
    exact ⟨rfl, by decide⟩

/-- Witness for C6 (amended): a not-yet-valid license (window 100–200 at
`now = 50`) and an expired license (window 0–10 at `now = 50`), both signed
by the trusted key, yield the respective errors. -/
theorem temporal_check_witness :
    ((decode_and_validate_license
        (.wellFormed (sign_license ⟨10, 100, 200⟩ ⟨"key1", 1⟩))
        [publicKeyOf ⟨"key1", 1⟩] 0 50).type = .COMMUNITY ∧
     strContainsLower
       (errText (decode_and_validate_license
         (.wellFormed (sign_license ⟨10, 100, 200⟩ ⟨"key1", 1⟩))
         [publicKeyOf ⟨"key1", 1⟩] 0 50))
       "not yet valid" = true) ∧
    ((decode_and_validate_license
        (.wellFormed (sign_license ⟨10, 0, 10⟩ ⟨"key1", 1⟩))
        [publicKeyOf ⟨"key1", 1⟩] 0 50).type = .COMMUNITY ∧
     strContainsLower
       (errText (decode_and_validate_license
         (.wellFormed (sign_license ⟨10, 0, 10⟩ ⟨"key1", 1⟩))
         [publicKeyOf ⟨"key1", 1⟩] 0 50))
       "expired" = true) :=
  ⟨(temporal_check (sign_license ⟨10, 100, 200⟩ ⟨"key1", 1⟩) ⟨10, 100, 200⟩
      [publicKeyOf ⟨"key1", 1⟩] 0 50 (by decide) rfl).1 (by decide),
   (temporal_check (sign_license ⟨10, 0, 10⟩ ⟨"key1", 1⟩) ⟨10, 0, 10⟩
      [publicKeyOf ⟨"key1", 1⟩] 0 50 (by decide) rfl).2 (by decide) (by decide)⟩

/-- Counterexample to C7 as stated: the temporally valid record
`{users := 0, valid_from := 0, valid_until := 100}` signed by a trusted key
and evaluated at usage 1 has `current seat usage > seat_count` (1 > 0), yet
the error is "Invalid user count in license" — it does not contain
"limit exceeded", because the invalid-seat-count check runs first. -/
theorem seat_check_counterexample :
    checkSignatures (sign_license ⟨0, 0, 100⟩ ⟨"key1", 1⟩).data
        (sign_license ⟨0, 0, 100⟩ ⟨"key1", 1⟩).signatures
        [publicKeyOf ⟨"key1", 1⟩] = true ∧
    ((0 : Int) < ((1 : Nat) : Int)) ∧
    (decode_and_validate_license
        (.wellFormed (sign_license ⟨0, 0, 100⟩ ⟨"key1", 1⟩))
        [publicKeyOf ⟨"key1", 1⟩] 1 50).error
      = some "Invalid user count in license" ∧
    strContainsLower
      (errText (decode_and_validate_license
        (.wellFormed (sign_license ⟨0, 0, 100⟩ ⟨"key1", 1⟩))
        [publicKeyOf ⟨"key1", 1⟩] 1 50))
      "limit exceeded" = false := by
  exact ⟨by decide, by decide, by decide, by decide⟩

/-- C7 (amended): for every validly signed, parsed, temporally valid
license record, `seat_count ≤ 0` yields COMMUNITY with an error containing
"user count"; and for a positive seat count, `current seat usage >
seat_count` yields COMMUNITY with an error containing "limit exceeded".
(The positivity guard is forced: with a non-positive seat count the
invalid-user-count check fires first.) -/
theorem seat_check (env : LicenseEnvelope) (r : LicenseRecord)
    (keys : List TrustKey) (usage now : Nat)
    (hsig : checkSignatures env.data env.signatures keys = true)
    (hdata : env.data = .record r)
    (hfrom : r.valid_from ≤ now) (huntil : now ≤ r.valid_until) :
    (r.users ≤ 0 →
      (decode_and_validate_license (.wellFormed env) keys usage now).type
        = .COMMUNITY ∧
      strContainsLower
        (errText (decode_and_validate_license (.wellFormed env) keys usage now))
        "user count" = true) ∧
    (0 < r.users → r.users < (usage : Int) →
      (decode_and_validate_license (.wellFormed env) keys usage now).type
        = .COMMUNITY ∧
      strContainsLower
        (errText (decode_and_validate_license (.wellFormed env) keys usage now))
        "limit exceeded" = true) := by
  obtain ⟨d, sigs⟩ := env
  simp only at hdata
  subst hdata
  simp only at hsig
  constructor
  · intro h
    have hval : decode_and_validate_license
        (.wellFormed ⟨.record r, sigs⟩) keys usage now =
        { type := .COMMUNITY, users := none,
          error := some "Invalid user count in license" } := by
      simp [decode_and_validate_license, hsig, not_lt.mpr hfrom,
        not_lt.mpr huntil, h]
    rw [hval]
    exact ⟨rfl, by decide⟩
  · intro hpos husage
    have hval : decode_and_validate_license
        (.wellFormed ⟨.record r, sigs⟩) keys usage now =
        { type := .COMMUNITY, users := none,
          error := some "License user limit exceeded" } := by
      simp [decode_and_validate_license, hsig, not_lt.mpr hfrom,
        not_lt.mpr huntil, not_le.mpr hpos, husage]
    rw [hval]
    exact ⟨rfl, by decide⟩

/-- Witness for C7 (amended): a signed, temporally valid license with
`users = 0` yields a "user count" error, and one with `users = 1` at usage
2 yields a "limit exceeded" error. -/
theorem seat_check_witness :
    ((decode_and_validate_license
        (.wellFormed (sign_license ⟨0, 0, 100⟩ ⟨"key1", 1⟩))
        [publicKeyOf ⟨"key1", 1⟩] 0 50).type = .COMMUNITY ∧
     strContainsLower
       (errText (decode_and_validate_license
         (.wellFormed (sign_license ⟨0, 0, 100⟩ ⟨"key1", 1⟩))
         [publicKeyOf ⟨"key1", 1⟩] 0 50))
       "user count" = true) ∧
    ((decode_and_validate_license
        (.wellFormed (sign_license ⟨1, 0, 100⟩ ⟨"key1", 1⟩))
        [publicKeyOf ⟨"key1", 1⟩] 2 50).type = .COMMUNITY ∧
     strContainsLower
       (errText (decode_and_validate_license
         (.wellFormed (sign_license ⟨1, 0, 100⟩ ⟨"key1", 1⟩))
         [publicKeyOf ⟨"key1", 1⟩] 2 50))
       "limit exceeded" = true) :=
  ⟨(seat_check (sign_license ⟨0, 0, 100⟩ ⟨"key1", 1⟩) ⟨0, 0, 100⟩
      [publicKeyOf ⟨"key1", 1⟩] 0 50 (by decide) rfl (by decide) (by decide)).1
      (by decide),
   (seat_check (sign_license ⟨1, 0, 100⟩ ⟨"key1", 1⟩) ⟨1, 0, 100⟩
      [publicKeyOf ⟨"key1", 1⟩] 2 50 (by decide) rfl (by decide) (by decide)).2
      (by decide) (by decide)⟩

/-- Helper: when the most recent record's fingerprint matches the new one,
`track` is a no-op. -/
theorem track_eq_of_head (records : List ActivationRecord) (raw : RawLicense)
    (keys : List TrustKey) (usage now : Nat) (reply : Option String)
    (h : records.head?.map (·.fingerprint) = some (fingerprintOf raw)) :
    track records raw keys usage now reply = records := by
  simp [track, h]

/-- Helper: when the most recent record's fingerprint differs from the new
one (or there is no record), `track` appends exactly one record. -/
theorem track_len_of_head_ne (records : List ActivationRecord)
    (raw : RawLicense) (keys : List TrustKey) (usage now : Nat)
    (reply : Option String)
    (h : ¬ records.head?.map (·.fingerprint) = some (fingerprintOf raw)) :
    (track records raw keys usage now reply).length = records.length + 1 := by
  simp [track, h]

/-- Helper: after `track`, the most recent record's fingerprint is the
fingerprint of the raw license just tracked. -/
theorem track_head_fp (records : List ActivationRecord) (raw : RawLicense)
    (keys : List TrustKey) (usage now : Nat) (reply : Option String) :
    (track records raw keys usage now reply).head?.map (·.fingerprint)
      = some (fingerprintOf raw) := by
  by_cases h : records.head?.map (·.fingerprint) = some (fingerprintOf raw)
  · rw [track_eq_of_head records raw keys usage now reply h]
    exact h
  · simp [track, h]

/-- Counterexample to C9 as stated: starting from the state produced by
tracking the absent license, changing the raw license to the different
value "invalid license string" (which fails to decode) creates zero
additional activation records, not one — both states fingerprint to the
no-license sentinel. -/
theorem track_counterexample :
    RawLicense.notBase64 "invalid license string" ≠ RawLicense.absent ∧
    track (track [] .absent [] 0 0 none)
        (.notBase64 "invalid license string") [] 0 0 none
      = track [] .absent [] 0 0 none := by
  exact ⟨by decide, by decide⟩

/-- C9 (amended): tracking the same raw license twice in succession creates
at most one new activation record, the second call being a no-op; after a
call for `raw1`, a call for `raw2` creates exactly one additional record
when the fingerprints of `raw2` and `raw1` differ, and none when they
coincide (as they do for any two raw values that both fail to decode, the
case the counterexample exhibits). -/
theorem track_transitions (records : List ActivationRecord)
    (raw1 raw2 : RawLicense) (keys : List TrustKey) (usage now : Nat)
    (rep1 rep2 : Option String) :
    (track (track records raw1 keys usage now rep1) raw1 keys usage now rep1
       = track records raw1 keys usage now rep1) ∧
    ((track records raw1 keys usage now rep1).length ≤ records.length + 1) ∧
    (fingerprintOf raw2 ≠ fingerprintOf raw1 →
      (track (track records raw1 keys usage now rep1) raw2 keys usage now
          rep2).length
        = (track records raw1 keys usage now rep1).length + 1) ∧
    (fingerprintOf raw2 = fingerprintOf raw1 →
      track (track records raw1 keys usage now rep1) raw2 keys usage now rep2
        = track records raw1 keys usage now rep1) := by
  refine ⟨?_, ?_, ?_, ?_⟩
  · exact track_eq_of_head _ raw1 keys usage now rep1
      (track_head_fp records raw1 keys usage now rep1)
  · by_cases h : records.head?.map (·.fingerprint) = some (fingerprintOf raw1)
    · rw [track_eq_of_head records raw1 keys usage now rep1 h]
      exact Nat.le_succ _
    · rw [track_len_of_head_ne records raw1 keys usage now rep1 h]
  · intro hne
    apply track_len_of_head_ne
    rw [track_head_fp records raw1 keys usage now rep1]
    simp [Ne.symm hne]
  · intro heq
    apply track_eq_of_head
    rw [track_head_fp records raw1 keys usage now rep1, heq]

/-- Witness for C9 (amended): from the empty history, tracking the
professional envelope once, again (no-op), then the absent license
(different fingerprint: one more record), then the absent license where the
fingerprint coincides (no-op). -/
theorem track_transitions_witness :
    (track (track [] (.wellFormed (sign_license ⟨10, 0, 100⟩ ⟨"key1", 1⟩))
          [publicKeyOf ⟨"key1", 1⟩] 0 50 none)
        (.wellFormed (sign_license ⟨10, 0, 100⟩ ⟨"key1", 1⟩))
        [publicKeyOf ⟨"key1", 1⟩] 0 50 none
      = track [] (.wellFormed (sign_license ⟨10, 0, 100⟩ ⟨"key1", 1⟩))
          [publicKeyOf ⟨"key1", 1⟩] 0 50 none) ∧
    ((track [] (.wellFormed (sign_license ⟨10, 0, 100⟩ ⟨"key1", 1⟩))
        [publicKeyOf ⟨"key1", 1⟩] 0 50 none).length ≤ 0 + 1) ∧
    (track (track [] (.wellFormed (sign_license ⟨10, 0, 100⟩ ⟨"key1", 1⟩))
          [publicKeyOf ⟨"key1", 1⟩] 0 50 none)
        .absent [publicKeyOf ⟨"key1", 1⟩] 0 50 none).length
      = (track [] (.wellFormed (sign_license ⟨10, 0, 100⟩ ⟨"key1", 1⟩))
          [publicKeyOf ⟨"key1", 1⟩] 0 50 none).length + 1 := by
  have h := track_transitions [] (.wellFormed (sign_license ⟨10, 0, 100⟩ ⟨"key1", 1⟩))
    .absent [publicKeyOf ⟨"key1", 1⟩] 0 50 none none
  exact ⟨h.1, h.2.1, h.2.2.1 (by decide)⟩

/-- C10 (implicit, from
`TestLicenseActivationInfo.test_license_activation_info_created`): when the
last recorded activation state is the no-license fingerprint, changing the
license to a non-empty string that fails to decode creates no new record —
the undecodable license is fingerprinted like the no-license case; whereas
from a recorded envelope, switching to a different envelope (e.g. an
expired or different professional license) or to no license creates exactly
one record. -/
theorem track_invalid_like_no_license (records : List ActivationRecord)
    (s : String) (e e' : LicenseEnvelope) (keys : List TrustKey)
    (usage now : Nat) (reply : Option String) :
    (records.head?.map (·.fingerprint) = some none →
      track records (.notBase64 s) keys usage now reply = records) ∧
    (records.head?.map (·.fingerprint) = some (some e) → e' ≠ e →
      (track records (.wellFormed e') keys usage now reply).length
        = records.length + 1) ∧
    (records.head?.map (·.fingerprint) = some (some e) →
      (track records .absent keys usage now reply).length
        = records.length + 1) := by
  refine ⟨?_, ?_, ?_⟩
  · intro h
    exact track_eq_of_head records (.notBase64 s) keys usage now reply h
  · intro h hne
    apply track_len_of_head_ne
    rw [h]
    simp [fingerprintOf, Ne.symm hne]
  · intro h
    apply track_len_of_head_ne
    rw [h]
    simp [fingerprintOf]

/-- Witness for C10: from the history holding the no-license record,
tracking "invalid license string" is a no-op; from the history holding the
professional envelope's record, tracking a different envelope or the absent
license each create one record. -/
theorem track_invalid_like_no_license_witness :
    (track [⟨none, .COMMUNITY, none, none⟩]
        (.notBase64 "invalid license string") [] 0 0 none
      = [⟨none, .COMMUNITY, none, none⟩]) ∧
    ((track [⟨some (sign_license ⟨10, 0, 100⟩ ⟨"key1", 1⟩), .PROFESSIONAL,
          some 10, none⟩]
        (.wellFormed (sign_license ⟨20, 0, 100⟩ ⟨"key1", 1⟩)) [] 0 0
        none).length = 2) ∧
    ((track [⟨some (sign_license ⟨10, 0, 100⟩ ⟨"key1", 1⟩), .PROFESSIONAL,
          some 10, none⟩]
        .absent [] 0 0 none).length = 2) := by
  have h := track_invalid_like_no_license
    [⟨some (sign_license ⟨10, 0, 100⟩ ⟨"key1", 1⟩), .PROFESSIONAL, some 10, none⟩]
    "invalid license string"
    (sign_license ⟨10, 0, 100⟩ ⟨"key1", 1⟩)
    (sign_license ⟨20, 0, 100⟩ ⟨"key1", 1⟩) [] 0 0 none
  have h0 := track_invalid_like_no_license
    [⟨none, .COMMUNITY, none, none⟩] "invalid license string"
    (sign_license ⟨10, 0, 100⟩ ⟨"key1", 1⟩)
    (sign_license ⟨20, 0, 100⟩ ⟨"key1", 1⟩) [] 0 0 none
  exact ⟨h0.1 (by decide), h.2.1 (by decide) (by decide), h.2.2 (by decide)⟩

end SysReptorLicense
